import Mathlib

/-!
# Verification of the multi-tenant user-directory CRUD service (`src/app.py`)

Shallow embedding of the FastAPI application in `app.py`.  The SQLite table
`users` is modelled as a list of rows in insertion order (the natural order a
`SELECT` without `ORDER BY` returns for this append-only-insertion workload);
each route handler becomes a pure function from the database state (and the
request data) to an `Except`-result, returning the new database state where the
handler commits one.  Fresh identifiers (`uuid.uuid4()`), the current timestamp
(`datetime.now`) and the Faker-generated seed users are passed as explicit
parameters, since the Python code obtains them from effectful generators.
-/

set_option autoImplicit false

namespace BuggyAPI

/-- A row of the `users` table (class `User` in `app.py`).  The Python column
`namespace` is named `ns` here because `namespace` is a Lean keyword; `fio` and
`address` are nullable columns, hence `Option String`. -/
structure UserRow where
  id : String
  ns : String
  login : String
  created_date : Nat
  fio : Option String
  address : Option String
  deriving Repr, DecidableEq

/-- The database: the `users` table in insertion order. -/
abbrev DB := List UserRow

/-- `db.session.query(User).filter_by(namespace=n).all()`. -/
def queryByNs (db : DB) (n : String) : List UserRow :=
  db.filter (fun u => u.ns == n)

/-- `db.session.query(User).filter_by(namespace=n, login=l).first()`. -/
def firstByNsLogin (db : DB) (n l : String) : Option UserRow :=
  db.find? (fun u => u.ns == n && u.login == l)

/-- `db.session.query(User).filter_by(namespace=n, id=i).first()`. -/
def firstByNsId (db : DB) (n i : String) : Option UserRow :=
  db.find? (fun u => u.ns == n && u.id == i)

/-- `raise HTTPException(status_code=..., detail=...)`. -/
structure HTTPError where
  status_code : Nat
  detail : String
  deriving Repr, DecidableEq

/-- The pydantic model `UserCreate`: `login` is a required `str` (so it is
always present once validation passed, but may be the empty string), while
`fio` and `address` default to `None` and are therefore optional strings. -/
structure UserCreate where
  login : String
  fio : Option String
  address : Option String
  deriving Repr, DecidableEq

/-- A request body before pydantic validation: each of the three fields may be
absent.  (Only presence/absence matters for the claims; a field of the wrong
JSON type is likewise a validation failure and is not modelled separately.) -/
structure RawPayload where
  login : Option String
  fio : Option String
  address : Option String
  deriving Repr, DecidableEq

/-- Pydantic validation of a request body against `UserCreate`: `login` is
declared with `Field(...)` (required, no further constraint), `fio` and
`address` with `Field(None)` (optional).  A body without `login` raises
`RequestValidationError` (`none` here); an empty-string `login` passes. -/
def parseUserCreate (r : RawPayload) : Option UserCreate :=
  match r.login with
  | none => none
  | some l => some ⟨l, r.fio, r.address⟩

/-- Python's `str.endswith`: the argument is a suffix of the string's
character sequence. -/
def endswith (s suffix : String) : Bool :=
  List.isSuffixOf suffix.data s.data

/-- `custom_exception_handler`: the status code the registered
`RequestValidationError` handler answers with, as a function of the request's
method and URL path.  `app.py` returns 500 when the path ends in `/users` and
the method is POST, and 422 otherwise. -/
def custom_exception_handler (method path : String) : Nat :=
  if endswith path "/users" && method == "POST" then 500 else 422

/-- One Faker-generated seed user of `init_namespace`: `faker.unique.user_name()`,
`faker.name()`, `faker.address()`, plus the `uuid.uuid4()` row id. -/
structure FakeUser where
  id : String
  login : String
  fio : String
  address : String
  deriving Repr, DecidableEq

/-- The row `init_namespace`'s loop body builds from one Faker seed. -/
def seedRow (n : String) (f : FakeUser) (now : Nat) : UserRow :=
  ⟨f.id, n, f.login, now, some f.fio, some f.address⟩

/-- `init_namespace` (`POST /init`): generates a fresh namespace id `n`,
inserts 3 Faker-generated users tagged with it and returns `{"namespace": n}`.
The fresh uuid `n`, the three Faker seeds and the timestamp are parameters. -/
def init_namespace (db : DB) (n : String) (f1 f2 f3 : FakeUser) (now : Nat) :
    String × DB :=
  (n, db ++ [seedRow n f1 now, seedRow n f2 now, seedRow n f3 now])

/-- `list_users` (`GET /{namespace}/users`): queries all users of the
namespace, drops the last element (`users[:-1]`, the injected truncation bug)
and raises 404 when the truncated list is empty. -/
def list_users (db : DB) (n : String) : Except HTTPError (List UserRow) :=
  let users := (queryByNs db n).dropLast
  if users.isEmpty then .error ⟨404, "Namespace not found"⟩
  else .ok users

/-- `create_user` (`POST /{namespace}/users`): rejects a duplicate
`(namespace, login)` with 400, otherwise commits one new row (fresh uuid `fid`,
timestamp `now`) and returns the refreshed row together with the new state. -/
def create_user (db : DB) (n : String) (user : UserCreate) (fid : String)
    (now : Nat) : Except HTTPError (UserRow × DB) :=
  match firstByNsLogin db n user.login with
  | some _ => .error ⟨400, "Login must be unique"⟩
  | none =>
    let new_user : UserRow := ⟨fid, n, user.login, now, user.fio, user.address⟩
    .ok (new_user, db ++ [new_user])

/-- `get_user` (`GET /{namespace}/users/{user_id}`). -/
def get_user (db : DB) (n i : String) : Except HTTPError UserRow :=
  match firstByNsId db n i with
  | none => .error ⟨404, "User not found"⟩
  | some u => .ok u

/-- Python `a or b` on the required `login` field: `""` is falsy. -/
def orKeep (new old : String) : String :=
  if new == "" then old else new

/-- Python `a or b` on the optional `fio`/`address` fields: `None` and `""`
are falsy. -/
def orKeepOpt (new old : Option String) : Option String :=
  match new with
  | none => old
  | some s => if s == "" then old else some s

/-- The three assignments of `update_user`'s body applied to the found row. -/
def apply_update (upd : UserCreate) (u : UserRow) : UserRow :=
  { u with
    login := orKeep upd.login u.login
    fio := orKeepOpt upd.fio u.fio
    address := orKeepOpt upd.address u.address }

/-- Replace the first element satisfying `p` by its image under `f` (the ORM
mutates the single row object the `first()` query returned). -/
def updateFirst {α : Type} (p : α → Bool) (f : α → α) : List α → List α
  | [] => []
  | x :: xs => if p x then f x :: xs else x :: updateFirst p f xs

/-- `update_user` (`PUT /{namespace}/users/{user_id}`): 404 when no row matches
`(namespace, id)`; otherwise overwrites `login`/`fio`/`address` with
`new or old` (no uniqueness re-check — the injected bug), commits, and returns
the refreshed row with the new state. -/
def update_user (db : DB) (n i : String) (user_update : UserCreate) :
    Except HTTPError (UserRow × DB) :=
  match firstByNsId db n i with
  | none => .error ⟨404, "User not found"⟩
  | some u =>
    .ok (apply_update user_update u,
         updateFirst (fun x => x.ns == n && x.id == i) (apply_update user_update) db)

/-- `delete_user` (`DELETE /{namespace}/users/{user_id}`): 404 when no row
matches `(namespace, id)`; otherwise deletes that row, commits, and answers
204 with no body (hence only the new state is returned). -/
def delete_user (db : DB) (n i : String) : Except HTTPError DB :=
  match firstByNsId db n i with
  | none => .error ⟨404, "User not found"⟩
  | some _ => .ok (db.eraseP (fun x => x.ns == n && x.id == i))

/-- The PUT route including the pydantic validation step: a body that fails
`UserCreate` validation never reaches `update_user`; the response status is the
one `custom_exception_handler` picks for a PUT to `/{n}/users/{i}`. -/
def put_user_route (db : DB) (n i : String) (raw : RawPayload) :
    Except HTTPError (UserRow × DB) :=
  match parseUserCreate raw with
  | none =>
    .error ⟨custom_exception_handler "PUT" ("/" ++ n ++ "/users/" ++ i),
            "validation error"⟩
  | some u => update_user db n i u

/-- The POST create route including the pydantic validation step. -/
def post_user_route (db : DB) (n : String) (raw : RawPayload) (fid : String)
    (now : Nat) : Except HTTPError (UserRow × DB) :=
  match parseUserCreate raw with
  | none =>
    .error ⟨custom_exception_handler "POST" ("/" ++ n ++ "/users"),
            "validation error"⟩
  | some u => create_user db n u fid now

/-! ## Helper lemmas -/

/-- Sample rows used by the witness theorems. -/
def bob : UserRow := ⟨"u1", "n1", "bob", 0, none, none⟩

/-- Sample row (namespace `n2`). -/
def eve : UserRow := ⟨"u2", "n2", "eve", 0, none, none⟩

/-- Sample row (namespace `n1`, distinct id and login from `bob`). -/
def carl : UserRow := ⟨"u3", "n1", "carl", 0, none, none⟩

theorem updateFirst_decomp {α : Type} (p : α → Bool) (f : α → α) {l : List α}
    {x : α} (h : l.find? p = some x) :
    ∃ l1 l2, l = l1 ++ x :: l2 ∧ (∀ b ∈ l1, p b = false) ∧
      updateFirst p f l = l1 ++ f x :: l2 := by
  induction l with
  | nil => simp [List.find?] at h
  | cons a as ih =>
    by_cases hpa : p a = true
    · rw [List.find?_cons_of_pos _ hpa] at h
      obtain rfl : a = x := by injection h
      exact ⟨[], as, rfl, by simp, by simp [updateFirst, hpa]⟩
    · rw [List.find?_cons_of_neg _ hpa] at h
      obtain ⟨l1, l2, hdb, hl1, hupd⟩ := ih h
      refine ⟨a :: l1, l2, by simp [hdb], ?_, ?_⟩
      · intro b hb
        rcases List.mem_cons.mp hb with rfl | hb
        · exact Bool.eq_false_iff.mpr hpa
        · exact hl1 b hb
      · simp [updateFirst, hpa, hupd]

theorem mem_updateFirst_of_neg {α : Type} (p : α → Bool) (f : α → α) {l : List α}
    {a : α} (ha : a ∈ l) (hpa : p a = false) : a ∈ updateFirst p f l := by
  induction l with
  | nil => simp at ha
  | cons b bs ih =>
    rcases List.mem_cons.mp ha with rfl | ha
    · simp [updateFirst, hpa]
    · by_cases hpb : p b = true
      · simp [updateFirst, hpb, List.mem_cons, ih, ha]
      · simp only [updateFirst, Bool.eq_false_iff.mpr hpb, if_false, List.mem_cons,
          Bool.false_eq_true]
        exact Or.inr (ih ha)

theorem create_user_conflict (db : DB) (n : String) (u : UserCreate)
    (fid : String) (now : Nat) (h : ∃ x ∈ db, x.ns = n ∧ x.login = u.login) :
    create_user db n u fid now = .error ⟨400, "Login must be unique"⟩ := by
  obtain ⟨x, hx, hns, hl⟩ := h
  have hsome : (db.find? (fun y => y.ns == n && y.login == u.login)).isSome :=
    List.find?_isSome.mpr ⟨x, hx, by simp [hns, hl]⟩
  obtain ⟨y, hy⟩ := Option.isSome_iff_exists.mp hsome
  have hy' : firstByNsLogin db n u.login = some y := hy
  unfold create_user
  rw [hy']

theorem create_user_no_conflict (db : DB) (n : String) (u : UserCreate)
    (fid : String) (now : Nat) (h : ∀ x ∈ db, ¬ (x.ns = n ∧ x.login = u.login)) :
    create_user db n u fid now =
      .ok (⟨fid, n, u.login, now, u.fio, u.address⟩,
           db ++ [⟨fid, n, u.login, now, u.fio, u.address⟩]) := by
  have hnone : firstByNsLogin db n u.login = none := by
    unfold firstByNsLogin
    rw [List.find?_eq_none]
    intro x hx
    simpa [Bool.and_eq_true, beq_iff_eq] using h x hx
  unfold create_user
  rw [hnone]

/-! ## Claims -/

/-- C1: `list_users` returns the namespace's persisted users with the last
element of the query result dropped (`users[:-1]`, query order), answers 404
`"Namespace not found"` when the truncated sequence is empty, and in particular
returns NotFound on a namespace holding exactly one user. -/
theorem list_users_spec (db : DB) (n : String) :
    (2 ≤ (queryByNs db n).length →
      list_users db n = .ok ((queryByNs db n).dropLast)) ∧
    ((queryByNs db n).length ≤ 1 →
      list_users db n = .error ⟨404, "Namespace not found"⟩) ∧
    (∀ u : UserRow, queryByNs db n = [u] →
      list_users db n = .error ⟨404, "Namespace not found"⟩) := by
  have hlen : (queryByNs db n).dropLast.length = (queryByNs db n).length - 1 :=
    List.length_dropLast _
  have h404 : (queryByNs db n).length ≤ 1 →
      list_users db n = .error ⟨404, "Namespace not found"⟩ := by
    intro h
    have hemp : (queryByNs db n).dropLast.isEmpty = true := by
      rw [List.isEmpty_iff_length_eq_zero, hlen]; omega
    unfold list_users
    rw [if_pos hemp]
  refine ⟨fun h => ?_, h404, fun u hu => h404 (by rw [hu]; simp)⟩
  have hemp : ¬ (queryByNs db n).dropLast.isEmpty = true := by
    rw [List.isEmpty_iff_length_eq_zero, hlen]; omega
  unfold list_users
  rw [if_neg hemp]

/-- Witness for C1 at concrete databases. -/
theorem list_users_spec_witness :
    list_users [bob, carl, eve] "n1" = .ok ((queryByNs [bob, carl, eve] "n1").dropLast) ∧
    list_users [eve] "n2" = .error ⟨404, "Namespace not found"⟩ ∧
    list_users [eve] "n1" = .error ⟨404, "Namespace not found"⟩ :=
  ⟨(list_users_spec [bob, carl, eve] "n1").1 (by decide),
   (list_users_spec [eve] "n2").2.1 (by decide),
   (list_users_spec [eve] "n1").2.1 (by decide)⟩

/-- C2: a request body failing schema validation is answered with status 500
exactly when the request is a POST to a path ending in `/users` (the
namespace-scoped create-user route), and with 422 for every other
method/path. -/
theorem custom_exception_handler_spec (method path : String) :
    (custom_exception_handler method path = 500 ↔
      method = "POST" ∧ "/users".data <:+ path.data) ∧
    (¬ (method = "POST" ∧ "/users".data <:+ path.data) →
      custom_exception_handler method path = 422) := by
  unfold custom_exception_handler endswith
  by_cases hp : "/users".data <:+ path.data <;>
    by_cases hm : method = "POST" <;>
      simp [List.isSuffixOf_iff_suffix, hp, hm]

/-- Witness for C2: the create-user route gets 500, a GET to the listing path
and a POST to `/init` get 422. -/
theorem custom_exception_handler_spec_witness :
    custom_exception_handler "POST" "/abc/users" = 500 ∧
    custom_exception_handler "GET" "/abc/users" = 422 ∧
    custom_exception_handler "POST" "/init" = 422 :=
  ⟨(custom_exception_handler_spec "POST" "/abc/users").1.mpr ⟨rfl, by decide⟩,
   (custom_exception_handler_spec "GET" "/abc/users").2 (by decide),
   (custom_exception_handler_spec "POST" "/init").2 (by decide)⟩

/-- C3: `create_user` fails with 400 `"Login must be unique"` when a user with
the same `(namespace, login)` already exists (the error path commits nothing —
the returned state is unchanged by construction), and otherwise appends
exactly one new row carrying the fresh id `fid`, the current timestamp `now`
and the payload's fields, returning that full persisted record. -/
theorem create_user_spec (db : DB) (n : String) (u : UserCreate) (fid : String)
    (now : Nat) :
    ((∃ x ∈ db, x.ns = n ∧ x.login = u.login) →
      create_user db n u fid now = .error ⟨400, "Login must be unique"⟩) ∧
    ((∀ x ∈ db, ¬ (x.ns = n ∧ x.login = u.login)) →
      create_user db n u fid now =
        .ok (⟨fid, n, u.login, now, u.fio, u.address⟩,
             db ++ [⟨fid, n, u.login, now, u.fio, u.address⟩])) :=
  ⟨create_user_conflict db n u fid now, create_user_no_conflict db n u fid now⟩

/-- Witness for C3: a duplicate `(namespace, login)` is rejected and leaves
the state alone; a fresh login is persisted as one appended row. -/
theorem create_user_spec_witness :
    create_user [bob] "n1" ⟨"bob", none, none⟩ "u7" 5 =
      .error ⟨400, "Login must be unique"⟩ ∧
    create_user [bob] "n1" ⟨"alice", some "A. Smith", none⟩ "u7" 5 =
      .ok (⟨"u7", "n1", "alice", 5, some "A. Smith", none⟩,
           [bob, ⟨"u7", "n1", "alice", 5, some "A. Smith", none⟩]) :=
  ⟨(create_user_spec [bob] "n1" ⟨"bob", none, none⟩ "u7" 5).1 (by decide),
   (create_user_spec [bob] "n1" ⟨"alice", some "A. Smith", none⟩ "u7" 5).2 (by decide)⟩

/-- C4: `update_user` re-checks no `(namespace, login)` uniqueness: when the
targeted row exists and the payload's non-empty login already belongs to a
different user (`other`) of the same namespace, the update succeeds, the
updated row carries the duplicate login, and both rows — two distinct users of
one namespace sharing one login — are in the resulting state. -/
theorem update_user_no_uniqueness_check (db : DB) (n i : String) (u : UserCreate)
    (x other : UserRow) (hx : firstByNsId db n i = some x)
    (hmem : other ∈ db) (hons : other.ns = n) (hoid : other.id ≠ i)
    (hologin : other.login = u.login) (hne : u.login ≠ "") :
    ∃ x' db', update_user db n i u = .ok (x', db') ∧
      x'.ns = n ∧ x'.id = i ∧ x'.login = u.login ∧
      x' ∈ db' ∧ other ∈ db' ∧ x' ≠ other ∧
      other.ns = x'.ns ∧ other.login = x'.login := by
  have hx' : db.find? (fun y => y.ns == n && y.id == i) = some x := hx
  obtain ⟨hxns, hxid⟩ : x.ns = n ∧ x.id = i := by
    simpa [Bool.and_eq_true, beq_iff_eq] using List.find?_some hx'
  refine ⟨apply_update u x,
    updateFirst (fun y => y.ns == n && y.id == i) (apply_update u) db,
    ?_, ?_, ?_, ?_, ?_, ?_, ?_, ?_, ?_⟩
  · unfold update_user
    rw [hx]
  · simpa [apply_update] using hxns
  · simpa [apply_update] using hxid
  · simp [apply_update, orKeep, hne]
  · obtain ⟨l1, l2, _, _, hupd⟩ := updateFirst_decomp _ (apply_update u) hx'
    rw [hupd]
    exact List.mem_append_right _ (List.mem_cons_self _ _)
  · apply mem_updateFirst_of_neg _ _ hmem
    have : (other.id == i) = false := beq_eq_false_iff_ne.mpr hoid
    simp [this]
  · intro hcontra
    apply hoid
    calc other.id = (apply_update u x).id := by rw [hcontra]
    _ = x.id := rfl
    _ = i := hxid
  · simpa [apply_update] using hons.trans hxns.symm
  · rw [hologin]
    simp [apply_update, orKeep, hne]

/-- Witness for C4: updating `carl`'s login to `bob`'s login succeeds and
leaves two distinct `n1`-users named `"bob"` in the state. -/
theorem update_user_no_uniqueness_check_witness :
    ∃ x' db', update_user [bob, carl] "n1" "u3" ⟨"bob", none, none⟩ = .ok (x', db') ∧
      x'.ns = "n1" ∧ x'.id = "u3" ∧ x'.login = "bob" ∧
      x' ∈ db' ∧ bob ∈ db' ∧ x' ≠ bob ∧
      bob.ns = x'.ns ∧ bob.login = x'.login :=
  update_user_no_uniqueness_check [bob, carl] "n1" "u3" ⟨"bob", none, none⟩
    carl bob (by decide) (by decide) (by decide) (by decide) (by decide) (by decide)

/-- C9: a successful `update_user` replaces exactly the targeted row in place:
the state decomposes as `l1 ++ x :: l2` before and `l1 ++ x' :: l2` after, so
every other user's row is unchanged, and the updated row keeps its `id`,
`namespace` and `created_date`; only `login`, `fio`, `address` may differ. -/
theorem update_user_frame (db : DB) (n i : String) (u : UserCreate)
    (x' : UserRow) (db' : DB) (h : update_user db n i u = .ok (x', db')) :
    ∃ x l1 l2, db = l1 ++ x :: l2 ∧ db' = l1 ++ x' :: l2 ∧
      x'.id = x.id ∧ x'.ns = x.ns ∧ x'.created_date = x.created_date := by
  unfold update_user at h
  split at h
  · exact absurd h (by simp)
  · rename_i x hfind
    simp only [Except.ok.injEq, Prod.mk.injEq] at h
    obtain ⟨hx', hdb'⟩ := h
    have hfind' : db.find? (fun y => y.ns == n && y.id == i) = some x := hfind
    obtain ⟨l1, l2, hdb, _, hupd⟩ := updateFirst_decomp _ (apply_update u) hfind'
    refine ⟨x, l1, l2, hdb, ?_, ?_, ?_, ?_⟩
    · rw [← hdb', hupd, hx']
    · rw [← hx']
      simp [apply_update]
    · rw [← hx']
      simp [apply_update]
    · rw [← hx']
      simp [apply_update]

/-- Witness for C9 at a concrete successful update. -/
theorem update_user_frame_witness :
    ∃ x l1 l2, ([bob, carl] : DB) = l1 ++ x :: l2 ∧
      ([bob, ⟨"u3", "n1", "carl", 0, some "C. Jones", none⟩] : DB) = l1 ++ ⟨"u3", "n1", "carl", 0, some "C. Jones", none⟩ :: l2 ∧
      (⟨"u3", "n1", "carl", 0, some "C. Jones", none⟩ : UserRow).id = x.id ∧
      (⟨"u3", "n1", "carl", 0, some "C. Jones", none⟩ : UserRow).ns = x.ns ∧
      (⟨"u3", "n1", "carl", 0, some "C. Jones", none⟩ : UserRow).created_date = x.created_date :=
  update_user_frame [bob, carl] "n1" "u3" ⟨"", some "C. Jones", none⟩
    ⟨"u3", "n1", "carl", 0, some "C. Jones", none⟩
    [bob, ⟨"u3", "n1", "carl", 0, some "C. Jones", none⟩] rfl

/-- C8: `delete_user` answers 404 `"User not found"` when no row matches
`(namespace, id)` (committing nothing), and otherwise removes exactly that row
(`db = l1 ++ x :: l2` becomes `l1 ++ l2`) and answers no content; provided row
ids are unique — `id` is the table's primary key — a subsequent `get_user`
with the same namespace and id then answers 404. -/
theorem delete_user_spec (db : DB) (n i : String) :
    ((∀ x ∈ db, ¬ (x.ns = n ∧ x.id = i)) →
      delete_user db n i = .error ⟨404, "User not found"⟩) ∧
    (∀ db', delete_user db n i = .ok db' →
      (∃ x l1 l2, x.ns = n ∧ x.id = i ∧ db = l1 ++ x :: l2 ∧ db' = l1 ++ l2) ∧
      (db.Pairwise (fun a b => a.id ≠ b.id) →
        get_user db' n i = .error ⟨404, "User not found"⟩)) := by
  constructor
  · intro h
    have hnone : firstByNsId db n i = none := by
      unfold firstByNsId
      rw [List.find?_eq_none]
      intro x hx
      simpa [Bool.and_eq_true, beq_iff_eq] using h x hx
    unfold delete_user
    rw [hnone]
  · intro db' h
    unfold delete_user at h
    split at h
    · exact absurd h (by simp)
    · rename_i x hfind
      simp only [Except.ok.injEq] at h
      have hfind' : db.find? (fun y => y.ns == n && y.id == i) = some x := hfind
      have hxmem : x ∈ db := List.mem_of_find?_eq_some hfind'
      have hpx : (x.ns == n && x.id == i) = true :=
        List.find?_some (p := fun y : UserRow => y.ns == n && y.id == i) hfind'
      obtain ⟨a, l1, l2, hl1, hpa, hdb, herase⟩ :=
        List.exists_of_eraseP (p := fun y : UserRow => y.ns == n && y.id == i) hxmem hpx
      obtain ⟨hans, haid⟩ : a.ns = n ∧ a.id = i := by
        simpa [Bool.and_eq_true, beq_iff_eq] using hpa
      constructor
      · exact ⟨a, l1, l2, hans, haid, hdb, by rw [← h, herase]⟩
      · intro hpw
        have hR : ∀ b ∈ l2, a.id ≠ b.id := by
          rw [hdb] at hpw
          have := (List.pairwise_append.mp hpw).2.1
          exact (List.pairwise_cons.mp this).1
        have hnone2 : firstByNsId db' n i = none := by
          unfold firstByNsId
          rw [List.find?_eq_none]
          intro b hb
          rw [← h, herase] at hb
          rcases List.mem_append.mp hb with hb1 | hb2
          · exact hl1 b hb1
          · simp only [Bool.and_eq_true, beq_iff_eq, not_and]
            intro _ hbid
            exact absurd (haid.trans hbid.symm) (hR b hb2)
        unfold get_user
        rw [hnone2]

/-- Witness for C8: deleting a missing id gives 404; deleting `bob` removes
exactly his row, and `get_user` on the deleted id then gives 404. -/
theorem delete_user_spec_witness :
    delete_user [bob, eve] "n1" "u9" = .error ⟨404, "User not found"⟩ ∧
    (∃ x l1 l2, x.ns = "n1" ∧ x.id = "u1" ∧ ([bob, eve] : DB) = l1 ++ x :: l2 ∧
      ([eve] : DB) = l1 ++ l2) ∧
    get_user [eve] "n1" "u1" = .error ⟨404, "User not found"⟩ :=
  ⟨(delete_user_spec [bob, eve] "n1" "u9").1 (by decide),
   ((delete_user_spec [bob, eve] "n1" "u1").2 [eve] rfl).1,
   ((delete_user_spec [bob, eve] "n1" "u1").2 [eve] rfl).2 (by decide)⟩

/-- C10: namespace isolation — when a user with the requested id exists but
only under a different namespace, `get_user`, `update_user` and `delete_user`
all answer 404 `"User not found"`; the error paths raise before any commit, so
the foreign user's row is untouched (no new state is produced). -/
theorem crud_namespace_isolation (db : DB) (n i : String) (u : UserCreate)
    (_hex : ∃ x ∈ db, x.id = i) (hiso : ∀ x ∈ db, x.id = i → x.ns ≠ n) :
    get_user db n i = .error ⟨404, "User not found"⟩ ∧
    update_user db n i u = .error ⟨404, "User not found"⟩ ∧
    delete_user db n i = .error ⟨404, "User not found"⟩ := by
  have hnone : firstByNsId db n i = none := by
    unfold firstByNsId
    rw [List.find?_eq_none]
    intro x hx
    simp only [Bool.and_eq_true, beq_iff_eq, not_and]
    intro hns hid
    exact hiso x hx hid hns
  refine ⟨?_, ?_, ?_⟩
  · unfold get_user
    rw [hnone]
  · unfold update_user
    rw [hnone]
  · unfold delete_user
    rw [hnone]

/-- Witness for C10: `eve` exists with id `u2`, but only in namespace `n2`;
all three operations addressed to `("n1", "u2")` answer 404. -/
theorem crud_namespace_isolation_witness :
    get_user [bob, eve] "n1" "u2" = .error ⟨404, "User not found"⟩ ∧
    update_user [bob, eve] "n1" "u2" ⟨"mallory", none, none⟩ =
      .error ⟨404, "User not found"⟩ ∧
    delete_user [bob, eve] "n1" "u2" = .error ⟨404, "User not found"⟩ :=
  crud_namespace_isolation [bob, eve] "n1" "u2" ⟨"mallory", none, none⟩
    (by decide) (by decide)

/-- C7: `init_namespace` takes no request input; given the generated fresh
namespace id (no row of the database carries it yet) and three Faker seeds
with pairwise-distinct logins (`faker.unique` guarantees distinctness), it
returns that namespace id, appends exactly the 3 seeded rows to the table, and
immediately afterwards the namespace contains exactly those 3 users, whose
logins are pairwise distinct. -/
theorem init_namespace_spec (db : DB) (n : String) (f1 f2 f3 : FakeUser)
    (now : Nat) (hfresh : ∀ u ∈ db, u.ns ≠ n)
    (h12 : f1.login ≠ f2.login) (h13 : f1.login ≠ f3.login)
    (h23 : f2.login ≠ f3.login) :
    (init_namespace db n f1 f2 f3 now).1 = n ∧
    (init_namespace db n f1 f2 f3 now).2 =
      db ++ [seedRow n f1 now, seedRow n f2 now, seedRow n f3 now] ∧
    queryByNs (init_namespace db n f1 f2 f3 now).2 n =
      [seedRow n f1 now, seedRow n f2 now, seedRow n f3 now] ∧
    List.Pairwise (fun a b => a.login ≠ b.login)
      (queryByNs (init_namespace db n f1 f2 f3 now).2 n) := by
  have hnil : db.filter (fun u => u.ns == n) = [] := by
    rw [List.filter_eq_nil_iff]
    intro a ha
    simpa [beq_iff_eq] using hfresh a ha
  have hq : queryByNs (init_namespace db n f1 f2 f3 now).2 n =
      [seedRow n f1 now, seedRow n f2 now, seedRow n f3 now] := by
    simp [queryByNs, init_namespace, List.filter_append, hnil, seedRow]
  refine ⟨rfl, rfl, hq, ?_⟩
  rw [hq]
  simp [List.pairwise_cons, seedRow, h12, h13, h23]

/-- Witness for C7 at a concrete database and concrete Faker seeds. -/
theorem init_namespace_spec_witness :
    (init_namespace [eve] "n9" ⟨"f1", "ann", "Ann A", "addr1"⟩
      ⟨"f2", "ben", "Ben B", "addr2"⟩ ⟨"f3", "cyd", "Cyd C", "addr3"⟩ 7).1 = "n9" ∧
    (init_namespace [eve] "n9" ⟨"f1", "ann", "Ann A", "addr1"⟩
      ⟨"f2", "ben", "Ben B", "addr2"⟩ ⟨"f3", "cyd", "Cyd C", "addr3"⟩ 7).2 =
      [eve] ++ [seedRow "n9" ⟨"f1", "ann", "Ann A", "addr1"⟩ 7,
        seedRow "n9" ⟨"f2", "ben", "Ben B", "addr2"⟩ 7,
        seedRow "n9" ⟨"f3", "cyd", "Cyd C", "addr3"⟩ 7] ∧
    queryByNs (init_namespace [eve] "n9" ⟨"f1", "ann", "Ann A", "addr1"⟩
      ⟨"f2", "ben", "Ben B", "addr2"⟩ ⟨"f3", "cyd", "Cyd C", "addr3"⟩ 7).2 "n9" =
      [seedRow "n9" ⟨"f1", "ann", "Ann A", "addr1"⟩ 7,
        seedRow "n9" ⟨"f2", "ben", "Ben B", "addr2"⟩ 7,
        seedRow "n9" ⟨"f3", "cyd", "Cyd C", "addr3"⟩ 7] ∧
    List.Pairwise (fun a b => a.login ≠ b.login)
      (queryByNs (init_namespace [eve] "n9" ⟨"f1", "ann", "Ann A", "addr1"⟩
        ⟨"f2", "ben", "Ben B", "addr2"⟩ ⟨"f3", "cyd", "Cyd C", "addr3"⟩ 7).2 "n9") :=
  init_namespace_spec [eve] "n9" ⟨"f1", "ann", "Ann A", "addr1"⟩
    ⟨"f2", "ben", "Ben B", "addr2"⟩ ⟨"f3", "cyd", "Cyd C", "addr3"⟩ 7
    (by decide) (by decide) (by decide) (by decide)

/-- C5 counterexample: a create request whose `login` is the empty string does
NOT fail validation — `UserCreate` only requires the field to be present — and
`create_user` persists a row with the empty login: on an empty database the
namespace-scoped POST succeeds and commits the row. -/
theorem create_user_empty_login_cex :
    post_user_route [] "n1" ⟨some "", none, none⟩ "id1" 0 =
      .ok (⟨"id1", "n1", "", 0, none, none⟩,
           [⟨"id1", "n1", "", 0, none, none⟩]) := rfl

/-- C5 amended: `create_user` does not validate non-emptiness of `login`; an
empty-string login passes schema validation (`parseUserCreate` accepts it),
and whenever no user of the namespace already carries the empty login, a row
with `login = ""` is persisted and returned. -/
theorem create_user_accepts_empty_login (db : DB) (n fid : String) (now : Nat)
    (f a : Option String) (h : ∀ x ∈ db, ¬ (x.ns = n ∧ x.login = "")) :
    parseUserCreate ⟨some "", f, a⟩ = some ⟨"", f, a⟩ ∧
    post_user_route db n ⟨some "", f, a⟩ fid now =
      .ok (⟨fid, n, "", now, f, a⟩, db ++ [⟨fid, n, "", now, f, a⟩]) := by
  refine ⟨rfl, ?_⟩
  have hp : post_user_route db n ⟨some "", f, a⟩ fid now =
      create_user db n ⟨"", f, a⟩ fid now := rfl
  rw [hp]
  exact create_user_no_conflict db n ⟨"", f, a⟩ fid now h

/-- Witness for the amended C5 at a concrete non-empty database. -/
theorem create_user_accepts_empty_login_witness :
    parseUserCreate ⟨some "", some "X Y", none⟩ = some ⟨"", some "X Y", none⟩ ∧
    post_user_route [bob] "n1" ⟨some "", some "X Y", none⟩ "u8" 3 =
      .ok (⟨"u8", "n1", "", 3, some "X Y", none⟩,
           [bob, ⟨"u8", "n1", "", 3, some "X Y", none⟩]) :=
  create_user_accepts_empty_login [bob] "n1" "u8" 3 (some "X Y") none (by decide)

/-- C6 counterexample: an update payload that omits `login` does NOT succeed —
`login` is a required field of `UserCreate`, so the PUT is rejected by schema
validation with 422 before `update_user` runs, even though the targeted user
exists. -/
theorem update_user_omitted_login_cex :
    put_user_route [bob] "n1" "u1" ⟨none, some "X Y", none⟩ =
      .error ⟨422, "validation error"⟩ := rfl

/-- C6 amended: `update_user` has partial-update semantics over payloads that
pass schema validation: each of `login`, `fio`, `address` is overwritten
exactly when the provided value is non-empty, and an empty `login`, or an
absent or empty `fio`/`address`, leaves the stored value unchanged (never set
to null) — in particular an update payload with an empty-string `login`
succeeds and keeps the old login; a payload that omits `login` altogether,
however, is rejected with a 422 validation error and reaches no row. -/
theorem update_user_partial_semantics (db : DB) (n i : String) (x : UserRow)
    (u : UserCreate) (hx : firstByNsId db n i = some x) :
    (∃ x' db', update_user db n i u = .ok (x', db') ∧
      x'.login = (if u.login = "" then x.login else u.login) ∧
      x'.fio = (match u.fio with
        | none => x.fio
        | some s => if s = "" then x.fio else some s) ∧
      x'.address = (match u.address with
        | none => x.address
        | some s => if s = "" then x.address else some s)) ∧
    (∀ f a : Option String, put_user_route db n i ⟨none, f, a⟩ =
      .error ⟨422, "validation error"⟩) := by
  constructor
  · refine ⟨apply_update u x,
      updateFirst (fun y => y.ns == n && y.id == i) (apply_update u) db,
      ?_, ?_, ?_, ?_⟩
    · unfold update_user
      rw [hx]
    · simp only [apply_update, orKeep]
      split_ifs with h1 h2 h3 <;> simp_all [beq_iff_eq]
    · simp only [apply_update, orKeepOpt]
      rcases u.fio with _ | s
      · rfl
      · simp only []
        split_ifs with h1 h2 h3 <;> simp_all [beq_iff_eq]
    · simp only [apply_update, orKeepOpt]
      rcases u.address with _ | s
      · rfl
      · simp only []
        split_ifs with h1 h2 h3 <;> simp_all [beq_iff_eq]
  · intro f a
    unfold put_user_route parseUserCreate custom_exception_handler
    simp [endswith]

/-- Witness for the amended C6: an empty-string login and empty/absent
optional fields keep the old values, a non-empty `fio` overwrites, and a
payload without `login` is rejected with 422. -/
theorem update_user_partial_semantics_witness :
    (∃ x' db', update_user [bob, carl] "n1" "u1" ⟨"", some "B. Bobson", some ""⟩ = .ok (x', db') ∧
      x'.login = (if ("" : String) = "" then bob.login else "") ∧
      x'.fio = (match (some "B. Bobson" : Option String) with
        | none => bob.fio
        | some s => if s = "" then bob.fio else some s) ∧
      x'.address = (match (some "" : Option String) with
        | none => bob.address
        | some s => if s = "" then bob.address else some s)) ∧
    (∀ f a : Option String, put_user_route [bob, carl] "n1" "u1" ⟨none, f, a⟩ =
      .error ⟨422, "validation error"⟩) :=
  update_user_partial_semantics [bob, carl] "n1" "u1" bob
    ⟨"", some "B. Bobson", some ""⟩ (by decide)

end BuggyAPI
